import Mathlib

/-!
Verification development for the LinkedIn posting console (`src/app.py`).

The file shallowly embeds the media-publishing workflow of the source:
the publish coordinator `post_to_linkedin_with_media`, the upload helpers,
the video-processing poll loop `wait_for_video_processing` with its status
reader `check_video_status`, the retry wrapper `generate_with_retry`, the
URL derivation helpers `get_linkedin_post_url` / `get_linkedin_activity_url`,
and the session post-history handling (`create_text_only_post`,
`create_post_with_image`, `create_post_with_video`, and the delete handler of
the delete tab).

External HTTP effects are modelled by an environment record that fixes the
response every collaborator call would return; wall-clock time in the poll
loop is modelled by a natural-number clock advanced by the duration of each
status check plus the fixed 3-second sleep of the source.
-/

set_option linter.unusedVariables false

/-! ## Percent-encoding at the UTF-8 byte level

`requests.utils.quote(urn, safe='')` percent-encodes every UTF-8 byte of its
argument except the unreserved ASCII bytes (letters, digits, `-` `.` `_` `~`).
Strings are embedded via their UTF-8 byte sequences (`List Nat`, each < 256).
-/

/-- UTF-8 encoding of a single character, from its code point. -/
def charUtf8 (c : Char) : List Nat :=
  let n := c.toNat
  if n < 128 then [n]
  else if n < 2048 then [192 + n / 64, 128 + n % 64]
  else if n < 65536 then [224 + n / 4096, 128 + (n / 64) % 64, 128 + n % 64]
  else [240 + n / 262144, 128 + (n / 4096) % 64, 128 + (n / 64) % 64, 128 + n % 64]

/-- UTF-8 byte sequence of a string. -/
def stringUtf8 (s : String) : List Nat :=
  s.data.flatMap charUtf8

/-- The bytes `urllib.parse.quote` never encodes: ALPHA / DIGIT / `-` `.` `_` `~`. -/
def isUnreservedByte (b : Nat) : Bool :=
  decide ((65 ≤ b ∧ b ≤ 90) ∨ (97 ≤ b ∧ b ≤ 122) ∨ (48 ≤ b ∧ b ≤ 57) ∨
    b = 45 ∨ b = 46 ∨ b = 95 ∨ b = 126)

/-- Upper-case hexadecimal digit for `n < 16`. -/
def hexDigitChar (n : Nat) : Char :=
  if n < 10 then Char.ofNat (48 + n) else Char.ofNat (55 + n)

/-- Percent-encoding of one byte, as `quote(..., safe='')` does. -/
def percentEncodeByte (b : Nat) : List Char :=
  if isUnreservedByte b then [Char.ofNat b]
  else ['%', hexDigitChar (b / 16), hexDigitChar (b % 16)]

/-- Percent-encoding of a byte sequence. -/
def percentEncode (bs : List Nat) : List Char :=
  bs.flatMap percentEncodeByte

/-- Numeric value of a hexadecimal digit character. -/
def hexVal (c : Char) : Nat :=
  if 48 ≤ c.toNat ∧ c.toNat ≤ 57 then c.toNat - 48
  else if 65 ≤ c.toNat ∧ c.toNat ≤ 70 then c.toNat - 55
  else if 97 ≤ c.toNat ∧ c.toNat ≤ 102 then c.toNat - 87
  else 0

/-- Percent-decoding back to a byte sequence (`urllib.parse.unquote`). -/
def percentDecode : List Char → List Nat
  | [] => []
  | '%' :: h1 :: h2 :: rest => (16 * hexVal h1 + hexVal h2) :: percentDecode rest
  | c :: rest => c.toNat :: percentDecode rest

/-! ## URL derivation (`get_linkedin_post_url`, `get_linkedin_activity_url`) -/

/-- `get_linkedin_post_url` from `src/app.py`: `None` on an empty (falsy) URN,
otherwise the fixed feed-update template with the percent-encoded URN
appended (`quote(post_urn, safe='')`).  The `try/except` of the source cannot
fire (`quote` is total) and is dropped. -/
def get_linkedin_post_url (post_urn : String) : Option String :=
  if post_urn = "" then none
  else some ("https://www.linkedin.com/feed/update/" ++
    String.mk (percentEncode (stringUtf8 post_urn)))

/-- `split(':')` of the source, on character lists. -/
def splitOnColon : List Char → List (List Char)
  | [] => [[]]
  | c :: rest =>
    if c = ':' then [] :: splitOnColon rest
    else
      match splitOnColon rest with
      | s :: ss => (c :: s) :: ss
      | [] => [[c]]

/-- `post_urn.split(':')[-1]`: the segment after the last colon. -/
def lastColonSegment (s : String) : List Char :=
  (splitOnColon s.data).getLastD []

/-- `get_linkedin_activity_url` from `src/app.py`: `None` on an empty URN,
otherwise the fixed activity template with the trailing colon-separated
segment of the URN appended. -/
def get_linkedin_activity_url (post_urn : String) : Option String :=
  if post_urn = "" then none
  else some ("https://www.linkedin.com/feed/update/urn:li:activity:" ++
    String.mk (lastColonSegment post_urn))

/-! ### Helper lemmas for percent-encoding round trips -/

theorem charUtf8_lt_256 (c : Char) : ∀ b ∈ charUtf8 c, b < 256 := by
  have hv : c.toNat < 1114112 := by
    have := c.valid
    rcases this with h | h
    · exact Nat.lt_trans h (by norm_num)
    · exact h.2
  intro b hb
  unfold charUtf8 at hb
  by_cases h1 : c.toNat < 128
  · simp [h1] at hb; omega
  · by_cases h2 : c.toNat < 2048
    · simp [h1, h2] at hb
      rcases hb with hb | hb <;> omega
    · by_cases h3 : c.toNat < 65536
      · simp [h1, h2, h3] at hb
        rcases hb with hb | hb | hb <;> omega
      · simp [h1, h2, h3] at hb
        rcases hb with hb | hb | hb | hb <;> omega

theorem stringUtf8_lt_256 (s : String) : ∀ b ∈ stringUtf8 s, b < 256 := by
  intro b hb
  unfold stringUtf8 at hb
  rcases List.mem_flatMap.mp hb with ⟨c, _, hc⟩
  exact charUtf8_lt_256 c b hc

set_option maxRecDepth 8000 in
theorem unreserved_char_spec :
    ∀ b < 256, isUnreservedByte b = true →
      (Char.ofNat b).toNat = b ∧ Char.ofNat b ≠ '%' := by decide

set_option maxRecDepth 8000 in
theorem hex_round_trip :
    ∀ b < 256, 16 * hexVal (hexDigitChar (b / 16)) + hexVal (hexDigitChar (b % 16)) = b ∧
      hexDigitChar (b / 16) ≠ '%' ∧ hexDigitChar (b % 16) ≠ '%' := by decide

theorem percentEncode_nil : percentEncode [] = [] := rfl

theorem percentEncode_cons (b : Nat) (bs : List Nat) :
    percentEncode (b :: bs) = percentEncodeByte b ++ percentEncode bs := by
  simp [percentEncode]

theorem percentDecode_quad (h1 h2 : Char) (rest : List Char) :
    percentDecode ('%' :: h1 :: h2 :: rest) =
      (16 * hexVal h1 + hexVal h2) :: percentDecode rest := rfl

theorem percentDecode_cons_ne (c : Char) (rest : List Char) (h : c ≠ '%') :
    percentDecode (c :: rest) = c.toNat :: percentDecode rest := by
  rw [percentDecode.eq_def]
  split
  · simp_all
  · rename_i h1 h2 r heq
    simp only [List.cons.injEq] at heq
    exact absurd heq.1 h
  · rename_i c2 r2 hx heq
    simp only [List.cons.injEq] at heq
    rw [heq.1, heq.2]

theorem percentDecode_percentEncode (bs : List Nat) (hbs : ∀ b ∈ bs, b < 256) :
    percentDecode (percentEncode bs) = bs := by
  induction bs with
  | nil => rfl
  | cons b rest ih =>
    have hb : b < 256 := hbs b (by simp)
    have hrest : ∀ x ∈ rest, x < 256 := fun x hx => hbs x (by simp [hx])
    rw [percentEncode_cons]
    by_cases hu : isUnreservedByte b = true
    · obtain ⟨hto, hne⟩ := unreserved_char_spec b hb hu
      rw [percentEncodeByte, if_pos hu]
      simp only [List.singleton_append]
      rw [percentDecode_cons_ne _ _ hne, hto, ih hrest]
    · obtain ⟨hhex, hne1, hne2⟩ := hex_round_trip b hb
      rw [percentEncodeByte, if_neg hu]
      simp only [List.cons_append, List.nil_append]
      rw [percentDecode_quad, hhex, ih hrest]

theorem splitOnColon_ne_nil (l : List Char) : splitOnColon l ≠ [] := by
  cases l with
  | nil => simp [splitOnColon]
  | cons c rest =>
    rw [splitOnColon]
    by_cases h : c = ':'
    · simp [h]
    · rw [if_neg h]
      cases hs : splitOnColon rest <;> simp

theorem splitOnColon_no_colon (l : List Char) (h : ':' ∉ l) : splitOnColon l = [l] := by
  induction l with
  | nil => rfl
  | cons c rest ih =>
    have hc : c ≠ ':' := fun hc => h (by simp [hc])
    have hrest : ':' ∉ rest := fun hm => h (by simp [hm])
    rw [splitOnColon, if_neg hc, ih hrest]

theorem splitOnColon_append_len (xs ys : List Char) :
    2 ≤ (splitOnColon (xs ++ ':' :: ys)).length := by
  induction xs with
  | nil =>
    rw [List.nil_append, splitOnColon, if_pos rfl]
    have := splitOnColon_ne_nil ys
    cases hs : splitOnColon ys with
    | nil => exact absurd hs this
    | cons a l => simp
  | cons c xs ih =>
    rw [List.cons_append, splitOnColon]
    by_cases hc : c = ':'
    · rw [if_pos hc]
      have := splitOnColon_ne_nil (xs ++ ':' :: ys)
      cases hs : splitOnColon (xs ++ ':' :: ys) with
      | nil => exact absurd hs this
      | cons a l => simp
    · rw [if_neg hc]
      cases hs : splitOnColon (xs ++ ':' :: ys) with
      | nil => exact absurd hs (splitOnColon_ne_nil _)
      | cons a l =>
        rw [hs] at ih
        simpa using ih

theorem getLastD_splitOnColon_append (xs ys : List Char) (hys : ':' ∉ ys) :
    (splitOnColon (xs ++ ':' :: ys)).getLastD [] = ys := by
  induction xs with
  | nil =>
    rw [List.nil_append, splitOnColon, if_pos rfl, splitOnColon_no_colon ys hys]
    rfl
  | cons c xs ih =>
    rw [List.cons_append, splitOnColon]
    by_cases hc : c = ':'
    · rw [if_pos hc, List.getLastD_cons]
      cases hs : splitOnColon (xs ++ ':' :: ys) with
      | nil => exact absurd hs (splitOnColon_ne_nil _)
      | cons a l =>
        rw [hs] at ih
        simpa using ih
    · rw [if_neg hc]
      have hlen := splitOnColon_append_len xs ys
      cases hs : splitOnColon (xs ++ ':' :: ys) with
      | nil => exact absurd hs (splitOnColon_ne_nil _)
      | cons a l =>
        rw [hs] at ih hlen
        cases l with
        | nil => simp at hlen
        | cons z zz =>
          rw [List.getLastD_cons] at ih ⊢
          simpa using ih

/-! ## Data model

`PostResponse` models the JSON reply of the create-post endpoint as the
coordinator reads it: the HTTP status code, the `id` field (`result.get('id',
'')` — an absent field is the empty string), and the raw body text used in
failure messages.  A collaborator call that raises is an `Except.error` with
the exception text. -/

structure PostResponse where
  status : Nat
  id : String
  body : String
deriving DecidableEq, Repr

/-- The `(bool, payload)` pair returned by every `create_*_post` function:
`(True, result_json)` on 200/201, `(False, reason_string)` otherwise. -/
inductive PublishResult
  | success (resp : PostResponse)
  | failure (reason : String)
deriving DecidableEq, Repr

/-- One entry of `st.session_state.post_history`. -/
structure PostRecord where
  urn : String
  url : Option String
  text : String
  type : String
  time : String
deriving DecidableEq, Repr

/-- The slice of `st.session_state` the publish workflow mutates. -/
structure SessionState where
  post_history : List PostRecord
  last_post_urn : Option String
  last_post_url : Option String
deriving DecidableEq, Repr

/-- `text[:100] + '...' if len(text) > 100 else text`. -/
def previewText (text : String) : String :=
  if text.data.length > 100 then String.mk (text.data.take 100) ++ "..." else text

/-- `create_text_only_post` from `src/app.py`.  The HTTP POST and its
`access_token`/`user_urn` arguments are abstracted into `resp`, the response
the create-post endpoint returns (or the exception it raises); `now` is the
`time.strftime` value observed at the call. -/
def create_text_only_post (text : String) (resp : Except String PostResponse)
    (now : String) (st : SessionState) : PublishResult × SessionState :=
  match resp with
  | .error e => (.failure e, st)
  | .ok r =>
    if r.status = 200 ∨ r.status = 201 then
      let post_urn := r.id
      let post_url := get_linkedin_post_url post_urn
      if post_urn ≠ "" then
        (.success r,
          { post_history := st.post_history ++
              [{ urn := post_urn, url := post_url, text := previewText text,
                 type := "text", time := now }],
            last_post_urn := some post_urn,
            last_post_url := post_url })
      else (.success r, st)
    else (.failure ("Failed: " ++ toString r.status ++ " - " ++ r.body), st)

/-- `create_post_with_image` from `src/app.py`; identical to the text-only
variant except the record's type tag.  `asset_urn` enters the request payload
only. -/
def create_post_with_image (text asset_urn : String) (resp : Except String PostResponse)
    (now : String) (st : SessionState) : PublishResult × SessionState :=
  match resp with
  | .error e => (.failure e, st)
  | .ok r =>
    if r.status = 200 ∨ r.status = 201 then
      let post_urn := r.id
      let post_url := get_linkedin_post_url post_urn
      if post_urn ≠ "" then
        (.success r,
          { post_history := st.post_history ++
              [{ urn := post_urn, url := post_url, text := previewText text,
                 type := "image", time := now }],
            last_post_urn := some post_urn,
            last_post_url := post_url })
      else (.success r, st)
    else (.failure ("Failed: " ++ toString r.status ++ " - " ++ r.body), st)

/-- `create_post_with_video` from `src/app.py`; identical to the text-only
variant except the record's type tag. -/
def create_post_with_video (text asset_urn : String) (resp : Except String PostResponse)
    (now : String) (st : SessionState) : PublishResult × SessionState :=
  match resp with
  | .error e => (.failure e, st)
  | .ok r =>
    if r.status = 200 ∨ r.status = 201 then
      let post_urn := r.id
      let post_url := get_linkedin_post_url post_urn
      if post_urn ≠ "" then
        (.success r,
          { post_history := st.post_history ++
              [{ urn := post_urn, url := post_url, text := previewText text,
                 type := "video", time := now }],
            last_post_urn := some post_urn,
            last_post_url := post_url })
      else (.success r, st)
    else (.failure ("Failed: " ++ toString r.status ++ " - " ++ r.body), st)

/-- The delete tab's history update after a successful delete call:
`[p for p in st.session_state.post_history if p['urn'] != post['urn']]`. -/
def delete_post_from_history (urn : String) (history : List PostRecord) : List PostRecord :=
  history.filter (fun p => p.urn != urn)

/-- `result.get('id', '')` on the success branch of a publish outcome. -/
def successId : PublishResult → Option String
  | .success r => some r.id
  | .failure _ => none

/-! ## Video processing status and poll loop -/

/-- Outcome of the poll loop: which of its three exits fired.  The source
returns `True` for both `available` and `timedOut` (see `processingBool`),
distinguishing them only in the status message it displays. -/
inductive ProcessingOutcome
  | available
  | error
  | timedOut
deriving DecidableEq, Repr

/-- The `for recipe in recipes: status = recipe.get('status'); if status:`
scan: the first truthy (present and non-empty) status field. -/
def firstRecipeStatus : List (Option String) → Option String
  | [] => none
  | some s :: rest => if s ≠ "" then some s else firstRecipeStatus rest
  | none :: rest => firstRecipeStatus rest

/-- `check_video_status` from `src/app.py`.  `resp` is the asset-status
response: `none` models a transport error (the `except` branch), otherwise
the HTTP code and the `recipes` array with each recipe's optional `status`
field.  Every outcome other than a 200 response with a truthy status maps to
`"PROCESSING"`. -/
def check_video_status (resp : Option (Nat × List (Option String))) : String :=
  match resp with
  | none => "PROCESSING"
  | some (code, recipes) =>
    if code = 200 then
      match firstRecipeStatus recipes with
      | some s => s
      | none => "PROCESSING"
    else "PROCESSING"

/-- `wait_for_video_processing` from `src/app.py`.  `polls k` is the response
of the `k`-th status check, `dur k` the wall-clock seconds that check takes,
`start` the `time.time()` reading when the loop began and `t` the current
reading; each iteration re-checks `time.time() - start_time < max_wait`,
polls once, and sleeps 3 seconds.  The `status_placeholder` UI messages are
summarized by the returned `ProcessingOutcome`. -/
def wait_for_video_processing (polls : Nat → Option (Nat × List (Option String)))
    (dur : Nat → Nat) (start max_wait t k : Nat) : ProcessingOutcome :=
  if h : t - start < max_wait then
    let status := check_video_status (polls k)
    if status = "AVAILABLE" then .available
    else if status = "ERROR" then .error
    else wait_for_video_processing polls dur start max_wait (t + dur k + 3) (k + 1)
  else .timedOut
termination_by start + max_wait - t
decreasing_by omega

/-- The boolean the source's `wait_for_video_processing` actually returns:
`True` on `AVAILABLE`, `False` on `ERROR`, `True` on timeout ("posting
anyway"). -/
def processingBool : ProcessingOutcome → Bool
  | .available => true
  | .error => false
  | .timedOut => true

/-! ## Retry wrapper for language-model calls -/

/-- `str.lower()` restricted to ASCII case folding. -/
def lowerChars (l : List Char) : List Char := l.map Char.toLower

/-- Does `s` start with `pat`? -/
def leadsWith : List Char → List Char → Bool
  | _, [] => true
  | [], _ :: _ => false
  | c :: s, p :: ps => c == p && leadsWith s ps

/-- Python's `pat in s` substring test. -/
def containsSub : List Char → List Char → Bool
  | [], pat => leadsWith [] pat
  | c :: rest, pat => leadsWith (c :: rest) pat || containsSub rest pat

/-- The retry trigger of `generate_with_retry`:
`"rate" in str(e).lower() or "limit" in str(e).lower()`. -/
def is_rate_limit_message (msg : String) : Bool :=
  containsSub (lowerChars msg.data) "rate".data ||
    containsSub (lowerChars msg.data) "limit".data

/-- The `for attempt in range(max_retries)` loop of `generate_with_retry`.
`step attempt` is the outcome of `agent.step(prompt)` on that attempt: the
response text, or the exception message.  `remaining` counts the iterations
left in the range (`max_retries - attempt`); `sleeps` accumulates the
`time.sleep(2 ** attempt)` waits performed, in order.  Falling off the loop
returns Python's `None`, modelled `.ok none`. -/
def generate_with_retry_loop (step : Nat → Except String String) (max_retries : Nat) :
    Nat → Nat → List Nat → Except String (Option String) × List Nat
  | 0, _, sleeps => (.ok none, sleeps)
  | remaining + 1, attempt, sleeps =>
    match step attempt with
    | .ok content => (.ok (some content), sleeps)
    | .error e =>
      if is_rate_limit_message e ∧ attempt < max_retries - 1 then
        generate_with_retry_loop step max_retries remaining (attempt + 1) (sleeps ++ [2 ^ attempt])
      else (.error e, sleeps)

/-- `generate_with_retry` from `src/app.py`, returning the result together
with the list of back-off sleeps performed. -/
def generate_with_retry (step : Nat → Except String String) (max_retries : Nat) :
    Except String (Option String) × List Nat :=
  generate_with_retry_loop step max_retries max_retries 0 []

/-! ## Publish coordinator -/

/-- The `media_type` tag (`"image"` / `"video"`). -/
inductive MediaType
  | image
  | video
deriving DecidableEq, Repr

/-- The uploaded media file, as the coordinator observes it: its byte length
(`media_file.tell()` after seeking to the end) and declared kind. -/
structure MediaSpec where
  size : Nat
  mtype : MediaType
deriving DecidableEq, Repr

/-- External calls the coordinator can make, for call-count assertions. -/
inductive ApiCall
  | registerImage
  | transferImage
  | registerVideo
  | transferVideo
  | createTextPost
  | createImagePost
  | createVideoPost
deriving DecidableEq, Repr

/-- One publish attempt's external world: the outcome each collaborator call
would return if invoked.  `imageReg`/`videoReg` are the `(upload_url, asset)`
pair of the register step or `none` on any failure (exception, non-2xx, as in
the source's `return None, None`); `imageUploadOk`/`videoUploadOk` is the
boolean of the byte-transfer PUT; `pollResponses`/`pollDurations` drive the
status poll loop; the `create*Resp` fields are the create-post endpoint's
reply per media category; `nowStr` is the `time.strftime` reading. -/
structure PublishEnv where
  connectionOk : Bool
  userUrn : Option String
  imageReg : Option (String × String)
  imageUploadOk : Bool
  videoReg : Option (String × String)
  videoUploadOk : Bool
  pollResponses : Nat → Option (Nat × List (Option String))
  pollDurations : Nat → Nat
  createTextResp : Except String PostResponse
  createImageResp : Except String PostResponse
  createVideoResp : Except String PostResponse
  nowStr : String

/-- `post_to_linkedin_with_media` from `src/app.py`.  Returns the
`(success, payload)` result together with the updated session state, plus the
list of external calls made (connection/profile reads excluded), in order.
The branch structure follows the source line by line: connection check,
profile resolution, text-only path, image path with fallback to text-only on
registration or transfer failure, video path with upfront size gate,
fallback to text-only on registration or transfer failure, a processing wait
whose result `processing_success` is never read, and video post creation. -/
def post_to_linkedin_with_media (env : PublishEnv) (text : String)
    (media : Option MediaSpec) (st : SessionState) :
    (PublishResult × SessionState) × List ApiCall :=
  if env.connectionOk then
    match env.userUrn with
    | none => ((.failure "Could not get user profile.", st), [])
    | some user_urn =>
      match media with
      | none =>
        (create_text_only_post text env.createTextResp env.nowStr st, [.createTextPost])
      | some m =>
        match m.mtype with
        | .image =>
          match env.imageReg with
          | none =>
            (create_text_only_post text env.createTextResp env.nowStr st,
              [.registerImage, .createTextPost])
          | some (upload_url, asset_urn) =>
            if env.imageUploadOk then
              (create_post_with_image text asset_urn env.createImageResp env.nowStr st,
                [.registerImage, .transferImage, .createImagePost])
            else
              (create_text_only_post text env.createTextResp env.nowStr st,
                [.registerImage, .transferImage, .createTextPost])
        | .video =>
          if m.size > 200 * 1024 * 1024 then
            ((.failure "Video exceeds 200MB limit", st), [])
          else
            match env.videoReg with
            | none =>
              (create_text_only_post text env.createTextResp env.nowStr st,
                [.registerVideo, .createTextPost])
            | some (upload_url, asset_urn) =>
              if env.videoUploadOk then
                let processing_success :=
                  wait_for_video_processing env.pollResponses env.pollDurations 0 120 0 0
                (create_post_with_video text asset_urn env.createVideoResp env.nowStr st,
                  [.registerVideo, .transferVideo, .createVideoPost])
              else
                (create_text_only_post text env.createTextResp env.nowStr st,
                  [.registerVideo, .transferVideo, .createTextPost])
  else ((.failure "Connection failed. Check internet and token.", st), [])

/-- The tab-1 image uploader gate: an uploaded image larger than 10 MB is
rejected (`st.session_state.uploaded_media = None`), a smaller one is stored
with `media_type = "image"`.  `file_size > 10` on the mebibyte float equals
`size > 10 * 1024 * 1024` on the byte count. -/
def image_uploader_gate (size : Nat) : Option MediaSpec :=
  if size > 10 * 1024 * 1024 then none else some { size := size, mtype := .image }

/-! ## Shared sample data for witnesses -/

/-- A well-formed create-post response. -/
def okResp : PostResponse := { status := 201, id := "urn:li:ugcPost:123", body := "" }

/-- A 201 create-post response whose body carries no `id`
(`result.get('id', '')` yields the empty string). -/
def emptyIdOkResp : PostResponse := { status := 201, id := "", body := "ok" }

/-- A healthy environment in which both registration calls fail. -/
def sampleEnv : PublishEnv :=
  { connectionOk := true, userUrn := some "urn:li:person:1",
    imageReg := none, imageUploadOk := true,
    videoReg := none, videoUploadOk := true,
    pollResponses := fun _ => none, pollDurations := fun _ => 0,
    createTextResp := .ok okResp,
    createImageResp := .ok okResp,
    createVideoResp := .ok okResp,
    nowStr := "2026-10-12 09:00" }

/-- `sampleEnv` with a succeeding video registration and transfer. -/
def sampleVideoEnv : PublishEnv :=
  { sampleEnv with videoReg := some ("https://upload", "urn:li:digitalmediaAsset:V1") }

/-- The empty session. -/
def emptySession : SessionState :=
  { post_history := [], last_post_urn := none, last_post_url := none }

/-! ## Claim C1 -/

/-- The condition of claim C1: the media's registration step yields no upload
URL, or its byte transfer fails.  For a video the registration step is only
reached when the payload passes the 200 MiB gate. -/
def mediaStepFails (env : PublishEnv) (m : MediaSpec) : Prop :=
  match m.mtype with
  | .image => env.imageReg = none ∨ env.imageUploadOk = false
  | .video => m.size ≤ 200 * 1024 * 1024 ∧ (env.videoReg = none ∨ env.videoUploadOk = false)

/-- Claim C1 (degradation to text-only): whenever a media attachment's upload
registration returns no upload URL or its byte transfer fails, the publish
outcome (result and session state) is exactly that of publishing the same
text with no media: a text-only post is created and no error surfaces for the
media failure. -/
theorem C1_degradation_to_text_only (env : PublishEnv) (text : String) (m : MediaSpec)
    (st : SessionState) (hm : mediaStepFails env m) :
    (post_to_linkedin_with_media env text (some m) st).1 =
      (post_to_linkedin_with_media env text none st).1 := by
  unfold post_to_linkedin_with_media
  by_cases hc : env.connectionOk
  · simp only [if_pos hc]
    cases hu : env.userUrn with
    | none => rfl
    | some u =>
      cases hmt : m.mtype with
      | image =>
        simp only [mediaStepFails, hmt] at hm
        rcases hm with hreg | hup
        · simp [hreg]
        · cases hr : env.imageReg with
          | none => simp
          | some pair => cases pair; simp [hup]
      | video =>
        simp only [mediaStepFails, hmt] at hm
        obtain ⟨hsize, hfail⟩ := hm
        rw [if_neg (by omega : ¬ m.size > 200 * 1024 * 1024)]
        rcases hfail with hreg | hup
        · simp [hreg]
        · cases hr : env.videoReg with
          | none => simp
          | some pair => cases pair; simp [hup]
  · simp only [if_neg hc]

/-- Witness for C1: in `sampleEnv` the image registration fails, and the
image publish outcome coincides with the text-only publish outcome. -/
theorem C1_degradation_witness :
    mediaStepFails sampleEnv { size := 5, mtype := .image } ∧
    (post_to_linkedin_with_media sampleEnv "Launch day!"
        (some { size := 5, mtype := .image }) emptySession).1 =
      (post_to_linkedin_with_media sampleEnv "Launch day!" none emptySession).1 :=
  ⟨Or.inl rfl, C1_degradation_to_text_only sampleEnv "Launch day!" _ emptySession (Or.inl rfl)⟩

/-! ## Claim C2 -/

/-- Claim C2 (video size precondition): a video payload longer than
200 MiB always yields a `Failure` result with neither the video
upload-registration call nor the video byte-transfer call invoked, and — once
the preceding connection and profile steps succeed, so that the video path is
reached — the failure reason is exactly `"Video exceeds 200MB limit"`. -/
theorem C2_video_size_precondition (env : PublishEnv) (text : String) (m : MediaSpec)
    (st : SessionState) (hv : m.mtype = .video) (hsize : m.size > 200 * 1024 * 1024) :
    (∃ reason, (post_to_linkedin_with_media env text (some m) st).1.1 = .failure reason) ∧
    ApiCall.registerVideo ∉ (post_to_linkedin_with_media env text (some m) st).2 ∧
    ApiCall.transferVideo ∉ (post_to_linkedin_with_media env text (some m) st).2 ∧
    (env.connectionOk = true → ∀ u, env.userUrn = some u →
      (post_to_linkedin_with_media env text (some m) st).1.1 =
        .failure "Video exceeds 200MB limit") := by
  unfold post_to_linkedin_with_media
  by_cases hc : env.connectionOk
  · simp only [if_pos hc]
    cases hu : env.userUrn with
    | none =>
      refine ⟨⟨"Could not get user profile.", rfl⟩, by simp, by simp, ?_⟩
      intro _ u hcontra
      cases hcontra
    | some u =>
      rw [hv, if_pos hsize]
      exact ⟨⟨"Video exceeds 200MB limit", rfl⟩, by simp, by simp, fun _ _ _ => rfl⟩
  · simp only [if_neg hc]
    refine ⟨⟨"Connection failed. Check internet and token.", rfl⟩, by simp, by simp, ?_⟩
    intro hcc
    exact absurd hcc (by simpa using hc)

/-- Witness for C2: a 200 MiB + 1 byte video in the healthy `sampleEnv`. -/
theorem C2_video_size_witness :
    (({ size := 200 * 1024 * 1024 + 1, mtype := .video } : MediaSpec).mtype = MediaType.video ∧
      ({ size := 200 * 1024 * 1024 + 1, mtype := .video } : MediaSpec).size > 200 * 1024 * 1024) ∧
    ((∃ reason, (post_to_linkedin_with_media sampleEnv "hi"
        (some { size := 200 * 1024 * 1024 + 1, mtype := .video }) emptySession).1.1 =
        .failure reason) ∧
      ApiCall.registerVideo ∉ (post_to_linkedin_with_media sampleEnv "hi"
        (some { size := 200 * 1024 * 1024 + 1, mtype := .video }) emptySession).2 ∧
      ApiCall.transferVideo ∉ (post_to_linkedin_with_media sampleEnv "hi"
        (some { size := 200 * 1024 * 1024 + 1, mtype := .video }) emptySession).2 ∧
      (sampleEnv.connectionOk = true → ∀ u, sampleEnv.userUrn = some u →
        (post_to_linkedin_with_media sampleEnv "hi"
          (some { size := 200 * 1024 * 1024 + 1, mtype := .video }) emptySession).1.1 =
          .failure "Video exceeds 200MB limit")) :=
  ⟨⟨rfl, by decide⟩,
    C2_video_size_precondition sampleEnv "hi" _ emptySession rfl (by decide)⟩

/-! ## Claim C3 -/

/-- Claim C3 (video-processing poll loop): while the deadline has not passed,
a poll observing `AVAILABLE` stops the loop immediately with the success
outcome, a poll observing `ERROR` stops it immediately with the failure
outcome, and any other observed value leaves the loop polling again after the
check's duration plus the fixed 3-second sleep; once the elapsed wall-clock
time since polling began reaches `max_wait` the loop stops with the timeout
outcome; and the status check maps transport errors and non-200 responses to
`"PROCESSING"`. -/
theorem C3_poll_loop (polls : Nat → Option (Nat × List (Option String)))
    (dur : Nat → Nat) (start max_wait t k : Nat) :
    (t - start < max_wait → check_video_status (polls k) = "AVAILABLE" →
      wait_for_video_processing polls dur start max_wait t k = .available) ∧
    (t - start < max_wait → check_video_status (polls k) = "ERROR" →
      wait_for_video_processing polls dur start max_wait t k = .error) ∧
    (t - start < max_wait → check_video_status (polls k) ≠ "AVAILABLE" →
      check_video_status (polls k) ≠ "ERROR" →
      wait_for_video_processing polls dur start max_wait t k =
        wait_for_video_processing polls dur start max_wait (t + dur k + 3) (k + 1)) ∧
    (max_wait ≤ t - start →
      wait_for_video_processing polls dur start max_wait t k = .timedOut) ∧
    check_video_status none = "PROCESSING" ∧
    (∀ code recipes, code ≠ 200 → check_video_status (some (code, recipes)) = "PROCESSING") := by
  refine ⟨?_, ?_, ?_, ?_, rfl, ?_⟩
  · intro hg hs
    rw [wait_for_video_processing, dif_pos hg]
    simp [hs]
  · intro hg hs
    rw [wait_for_video_processing, dif_pos hg]
    simp [hs]
  · intro hg hs1 hs2
    rw [wait_for_video_processing, dif_pos hg]
    simp [hs1, hs2]
  · intro hg
    rw [wait_for_video_processing, dif_neg (by omega)]
  · intro code recipes hcode
    simp [check_video_status, hcode]

/-- Witness for C3: concrete instances of each poll-loop behaviour, at the
default 120-second deadline. -/
theorem C3_poll_loop_witness :
    (0 - 0 < 120 ∧ check_video_status ((fun _ => some (200, [some "AVAILABLE"])) 0) = "AVAILABLE" ∧
      wait_for_video_processing (fun _ => some (200, [some "AVAILABLE"]))
        (fun _ => 1) 0 120 0 0 = .available) ∧
    (check_video_status ((fun _ => some (200, [some "ERROR"])) 0) = "ERROR" ∧
      wait_for_video_processing (fun _ => some (200, [some "ERROR"]))
        (fun _ => 1) 0 120 0 0 = .error) ∧
    (check_video_status ((fun _ => none) 0) ≠ "AVAILABLE" ∧
      wait_for_video_processing (fun _ => none) (fun _ => 1) 0 120 0 0 =
        wait_for_video_processing (fun _ => none) (fun _ => 1) 0 120 4 1) ∧
    (120 ≤ 120 - 0 ∧
      wait_for_video_processing (fun _ => none) (fun _ => 1) 0 120 120 40 = .timedOut) :=
  ⟨⟨by decide, rfl,
      (C3_poll_loop (fun _ => some (200, [some "AVAILABLE"])) (fun _ => 1) 0 120 0 0).1
        (by decide) rfl⟩,
    ⟨rfl,
      (C3_poll_loop (fun _ => some (200, [some "ERROR"])) (fun _ => 1) 0 120 0 0).2.1
        (by decide) rfl⟩,
    ⟨by decide,
      (C3_poll_loop (fun _ => none) (fun _ => 1) 0 120 0 0).2.2.1
        (by decide) (by decide) (by decide)⟩,
    ⟨by decide,
      (C3_poll_loop (fun _ => none) (fun _ => 1) 0 120 120 40).2.2.2.1 (by decide)⟩⟩

/-! ## Claim C4 -/

/-- If no poll ever observes a terminal status, the loop runs to its deadline
and reports the timeout outcome. -/
theorem wait_timeout_of_nonterminal (polls : Nat → Option (Nat × List (Option String)))
    (dur : Nat → Nat) (start max_wait : Nat)
    (h : ∀ j, check_video_status (polls j) ≠ "AVAILABLE" ∧
      check_video_status (polls j) ≠ "ERROR") :
    ∀ n t k, start + max_wait - t ≤ n →
      wait_for_video_processing polls dur start max_wait t k = .timedOut := by
  intro n
  induction n with
  | zero =>
    intro t k hn
    rw [wait_for_video_processing, dif_neg (by omega)]
  | succ n ih =>
    intro t k hn
    by_cases hg : t - start < max_wait
    · rw [wait_for_video_processing, dif_pos hg]
      simp only [if_neg (h k).1, if_neg (h k).2]
      exact ih (t + dur k + 3) (k + 1) (by omega)
    · rw [wait_for_video_processing, dif_neg hg]

/-- The video path after a successful registration and transfer: the
coordinator runs the processing wait and then unconditionally creates the
video post. -/
theorem publish_video_after_transfer (env : PublishEnv) (text : String) (m : MediaSpec)
    (st : SessionState) (u upload_url asset : String)
    (hc : env.connectionOk = true) (hu : env.userUrn = some u)
    (hv : m.mtype = .video) (hsize : m.size ≤ 200 * 1024 * 1024)
    (hreg : env.videoReg = some (upload_url, asset)) (hup : env.videoUploadOk = true) :
    post_to_linkedin_with_media env text (some m) st =
      (create_post_with_video text asset env.createVideoResp env.nowStr st,
        [.registerVideo, .transferVideo, .createVideoPost]) := by
  have h2 : ¬ m.size > 200 * 1024 * 1024 := by omega
  unfold post_to_linkedin_with_media
  rw [if_pos hc]
  simp only [hu, hv, hreg, hup, h2, ite_false, ite_true, if_true, if_false]

/-- Claim C4 (soft timeout is non-fatal): when the byte transfer succeeds but
no poll within the deadline observes `AVAILABLE` or `ERROR`, the processing
wait returns the timeout outcome, yet the coordinator still invokes the
create-post endpoint for the video and returns that call's result — the
timeout produces no `Failure` of its own and does not skip post creation. -/
theorem C4_soft_timeout_non_fatal (env : PublishEnv) (text : String) (m : MediaSpec)
    (st : SessionState) (u upload_url asset : String)
    (hc : env.connectionOk = true) (hu : env.userUrn = some u)
    (hv : m.mtype = .video) (hsize : m.size ≤ 200 * 1024 * 1024)
    (hreg : env.videoReg = some (upload_url, asset)) (hup : env.videoUploadOk = true)
    (hpoll : ∀ j, check_video_status (env.pollResponses j) ≠ "AVAILABLE" ∧
      check_video_status (env.pollResponses j) ≠ "ERROR") :
    wait_for_video_processing env.pollResponses env.pollDurations 0 120 0 0 = .timedOut ∧
    ApiCall.createVideoPost ∈ (post_to_linkedin_with_media env text (some m) st).2 ∧
    (post_to_linkedin_with_media env text (some m) st).1 =
      create_post_with_video text asset env.createVideoResp env.nowStr st := by
  have hpub := publish_video_after_transfer env text m st u upload_url asset
    hc hu hv hsize hreg hup
  refine ⟨wait_timeout_of_nonterminal env.pollResponses env.pollDurations 0 120 hpoll
    120 0 0 (by omega), ?_, ?_⟩
  · rw [hpub]; simp
  · rw [hpub]

/-- Every status poll of `sampleVideoEnv` is a transport error, read as
`"PROCESSING"`. -/
theorem sampleVideoEnv_poll_processing (j : Nat) :
    check_video_status (sampleVideoEnv.pollResponses j) = "PROCESSING" := rfl

/-- Witness for C4: `sampleVideoEnv` transfers successfully but every status
poll hits a transport error; the wait times out and the video post is still
created, successfully. -/
theorem C4_soft_timeout_witness :
    (sampleVideoEnv.connectionOk = true ∧
      sampleVideoEnv.userUrn = some "urn:li:person:1" ∧
      sampleVideoEnv.videoReg = some ("https://upload", "urn:li:digitalmediaAsset:V1") ∧
      sampleVideoEnv.videoUploadOk = true ∧
      (∀ j, check_video_status (sampleVideoEnv.pollResponses j) ≠ "AVAILABLE" ∧
        check_video_status (sampleVideoEnv.pollResponses j) ≠ "ERROR")) ∧
    (wait_for_video_processing sampleVideoEnv.pollResponses
        sampleVideoEnv.pollDurations 0 120 0 0 = .timedOut ∧
      ApiCall.createVideoPost ∈ (post_to_linkedin_with_media sampleVideoEnv "demo"
        (some { size := 1024, mtype := .video }) emptySession).2 ∧
      (post_to_linkedin_with_media sampleVideoEnv "demo"
        (some { size := 1024, mtype := .video }) emptySession).1 =
        create_post_with_video "demo" "urn:li:digitalmediaAsset:V1"
          sampleVideoEnv.createVideoResp sampleVideoEnv.nowStr emptySession) :=
  ⟨⟨rfl, rfl, rfl, rfl,
      fun j => ⟨by rw [sampleVideoEnv_poll_processing]; decide,
        by rw [sampleVideoEnv_poll_processing]; decide⟩⟩,
    C4_soft_timeout_non_fatal sampleVideoEnv "demo" _ emptySession
      "urn:li:person:1" "https://upload" "urn:li:digitalmediaAsset:V1"
      rfl rfl rfl (by decide) rfl rfl
      (fun j => ⟨by rw [sampleVideoEnv_poll_processing]; decide,
        by rw [sampleVideoEnv_poll_processing]; decide⟩)⟩

/-! ## Claim C5 -/

/-- Claim C5 (retry backoff bounds), for `max_retries = 3`: an attempt that
succeeds returns the agent's response text with no sleep; a non-rate-limit
failure propagates immediately from any attempt; a rate-limit failure on a
non-final attempt sleeps exactly `2 ^ attempt` seconds (1 s after the first
failure, 2 s after the second) before retrying; and any failure on the final
attempt — rate-limit or not — propagates with no further sleep. -/
theorem C5_retry_backoff (step : Nat → Except String String) :
    (∀ c, step 0 = .ok c →
      generate_with_retry step 3 = (.ok (some c), [])) ∧
    (∀ e, step 0 = .error e → is_rate_limit_message e = false →
      generate_with_retry step 3 = (.error e, [])) ∧
    (∀ e c, step 0 = .error e → is_rate_limit_message e = true → step 1 = .ok c →
      generate_with_retry step 3 = (.ok (some c), [1])) ∧
    (∀ e e1, step 0 = .error e → is_rate_limit_message e = true →
      step 1 = .error e1 → is_rate_limit_message e1 = false →
      generate_with_retry step 3 = (.error e1, [1])) ∧
    (∀ e e1 c, step 0 = .error e → is_rate_limit_message e = true →
      step 1 = .error e1 → is_rate_limit_message e1 = true → step 2 = .ok c →
      generate_with_retry step 3 = (.ok (some c), [1, 2])) ∧
    (∀ e e1 e2, step 0 = .error e → is_rate_limit_message e = true →
      step 1 = .error e1 → is_rate_limit_message e1 = true → step 2 = .error e2 →
      generate_with_retry step 3 = (.error e2, [1, 2])) := by
  refine ⟨?_, ?_, ?_, ?_, ?_, ?_⟩
  · intro c h0
    simp [generate_with_retry, generate_with_retry_loop, h0]
  · intro e h0 hr
    simp [generate_with_retry, generate_with_retry_loop, h0, hr]
  · intro e c h0 hr h1
    simp [generate_with_retry, generate_with_retry_loop, h0, hr, h1]
  · intro e e1 h0 hr h1 hr1
    simp [generate_with_retry, generate_with_retry_loop, h0, hr, h1, hr1]
  · intro e e1 c h0 hr h1 hr1 h2
    simp [generate_with_retry, generate_with_retry_loop, h0, hr, h1, hr1, h2]
  · intro e e1 e2 h0 hr h1 hr1 h2
    simp [generate_with_retry, generate_with_retry_loop, h0, hr, h1, hr1, h2]

/-- A mock agent: rate-limit failures on the first two attempts, success on
the third. -/
def stepTwoRateFailures : Nat → Except String String :=
  fun a => if a = 0 then .error "Rate limit reached"
    else if a = 1 then .error "429 rate limit" else .ok "generated post"

/-- A mock agent: rate-limit failures on all three attempts. -/
def stepThreeRateFailures : Nat → Except String String :=
  fun a => if a = 0 then .error "Rate limit reached"
    else if a = 1 then .error "429 rate limit" else .error "still rate limited"

/-- Witness for C5: two rate-limit failures then success yields the response
after sleeps of exactly 1 s and 2 s; a third consecutive rate-limit failure
propagates with no third sleep. -/
theorem C5_retry_backoff_witness :
    (is_rate_limit_message "Rate limit reached" = true ∧
      is_rate_limit_message "429 rate limit" = true) ∧
    generate_with_retry stepTwoRateFailures 3 = (.ok (some "generated post"), [1, 2]) ∧
    generate_with_retry stepThreeRateFailures 3 = (.error "still rate limited", [1, 2]) :=
  ⟨⟨by decide, by decide⟩,
    (C5_retry_backoff stepTwoRateFailures).2.2.2.2.1 _ _ _
      rfl (by decide) rfl (by decide) rfl,
    (C5_retry_backoff stepThreeRateFailures).2.2.2.2.2 _ _ _
      rfl (by decide) rfl (by decide) rfl⟩

/-! ## Claim C6 -/

/-- One publish of a session run: the text posted, the create-post endpoint's
reply, and the timestamp observed. -/
structure TextPostStep where
  text : String
  resp : Except String PostResponse
  now : String

/-- A session's sequence of text publishes, folded over the state. -/
def runTextPosts (steps : List TextPostStep) (st : SessionState) : SessionState :=
  steps.foldl (fun s stp => (create_text_only_post stp.text stp.resp stp.now s).2) st

/-- The history record a step appends when its response is well-formed. -/
def stepRecord (stp : TextPostStep) : PostRecord :=
  match stp.resp with
  | .ok r =>
    { urn := r.id, url := get_linkedin_post_url r.id, text := previewText stp.text,
      type := "text", time := stp.now }
  | .error _ => { urn := "", url := none, text := "", type := "", time := "" }

/-- A publish whose create-post response is a 200/201 carrying a non-empty
identifier. -/
def stepOk (stp : TextPostStep) : Prop :=
  ∃ r, stp.resp = .ok r ∧ (r.status = 200 ∨ r.status = 201) ∧ r.id ≠ ""

/-- A well-formed successful publish appends exactly its record. -/
theorem create_text_only_post_ok (stp : TextPostStep) (s : SessionState)
    (h : stepOk stp) :
    (create_text_only_post stp.text stp.resp stp.now s).2 =
      { post_history := s.post_history ++ [stepRecord stp],
        last_post_urn := some (stepRecord stp).urn,
        last_post_url := (stepRecord stp).url } := by
  obtain ⟨r, hr, hst, hid⟩ := h
  rw [create_text_only_post.eq_def, hr]
  simp only [if_pos hst, if_pos hid]
  rw [stepRecord.eq_def, hr]

/-- Counterexample to C6 as stated: one publish that returns the Success
outcome (HTTP 201) but whose response carries no identifier appends nothing,
so after one successful publish the history has 0 entries, not 1. -/
theorem C6_history_counterexample :
    (create_text_only_post "hello" (.ok emptyIdOkResp) "2026-10-12 09:00" emptySession).1 =
      .success emptyIdOkResp ∧
    (runTextPosts [{ text := "hello", resp := .ok emptyIdOkResp, now := "2026-10-12 09:00" }]
      emptySession).post_history.length = 0 :=
  ⟨rfl, rfl⟩

/-- Claim C6 as amended (history append-only): after `N` successful publishes
each of whose create-post response carries a non-empty identifier, the
session history holds exactly those `N` records in call order, each appended
exactly once with the prior entries untouched; deleting an identifier held by
exactly one entry removes exactly that entry and leaves the others in their
original relative order. -/
theorem runTextPosts_history (steps : List TextPostStep) :
    ∀ st : SessionState, (∀ stp ∈ steps, stepOk stp) →
      (runTextPosts steps st).post_history = st.post_history ++ steps.map stepRecord := by
  induction steps with
  | nil => intro st _; simp [runTextPosts]
  | cons stp rest ih =>
    intro st hok
    have hstp : stepOk stp := hok stp (by simp)
    have hrest : ∀ x ∈ rest, stepOk x := fun x hx => hok x (by simp [hx])
    rw [runTextPosts, List.foldl_cons, ← runTextPosts, ih _ hrest,
      create_text_only_post_ok stp st hstp]
    simp

theorem C6_history_append_only (steps : List TextPostStep) (st : SessionState)
    (hok : ∀ stp ∈ steps, stepOk stp) :
    (runTextPosts steps st).post_history = st.post_history ++ steps.map stepRecord ∧
    (∀ stp s, stepOk stp →
      (create_text_only_post stp.text stp.resp stp.now s).2.post_history =
        s.post_history ++ [stepRecord stp]) ∧
    (∀ u (l1 l2 : List PostRecord) (p : PostRecord), p.urn = u →
      (∀ q ∈ l1, q.urn ≠ u) → (∀ q ∈ l2, q.urn ≠ u) →
      delete_post_from_history u (l1 ++ p :: l2) = l1 ++ l2) := by
  refine ⟨runTextPosts_history steps st hok, ?_, ?_⟩
  · intro stp s h
    rw [create_text_only_post_ok stp s h]
  · intro u l1 l2 p hp h1 h2
    rw [delete_post_from_history, List.filter_append, List.filter_cons]
    have hp' : (p.urn != u) = false := by simp [hp]
    rw [hp']
    simp only [Bool.false_eq_true, if_false]
    rw [List.filter_eq_self.mpr (fun q hq => by simp [h1 q hq]),
      List.filter_eq_self.mpr (fun q hq => by simp [h2 q hq])]

/-- Two well-formed publishes for the C6 witness. -/
def stepA : TextPostStep :=
  { text := "first", resp := .ok okResp, now := "2026-10-12 09:00" }

/-- A second well-formed publish with a distinct identifier. -/
def stepB : TextPostStep :=
  { text := "second", resp := .ok { status := 200, id := "urn:li:ugcPost:456", body := "" },
    now := "2026-10-12 09:05" }

/-- Witness for C6: two successful publishes leave exactly their two records
in call order, and deleting the first record's identifier leaves exactly the
second. -/
theorem C6_history_append_only_witness :
    (∀ stp ∈ [stepA, stepB], stepOk stp) ∧
    (runTextPosts [stepA, stepB] emptySession).post_history =
      [stepRecord stepA, stepRecord stepB] ∧
    delete_post_from_history "urn:li:ugcPost:123" ([] ++ stepRecord stepA :: [stepRecord stepB]) =
      [] ++ [stepRecord stepB] := by
  have hok : ∀ stp ∈ [stepA, stepB], stepOk stp := by
    intro stp hstp
    simp only [List.mem_cons, List.not_mem_nil, or_false] at hstp
    rcases hstp with rfl | rfl
    · exact ⟨okResp, rfl, Or.inr rfl, by decide⟩
    · exact ⟨{ status := 200, id := "urn:li:ugcPost:456", body := "" }, rfl,
        Or.inl rfl, by decide⟩
  obtain ⟨hhist, hstep, hdel⟩ := C6_history_append_only [stepA, stepB] emptySession hok
  refine ⟨hok, by rw [hhist]; rfl, ?_⟩
  exact hdel "urn:li:ugcPost:123" [] [stepRecord stepB] (stepRecord stepA)
    (by decide) (by intro q hq; cases hq)
    (by intro q hq
        simp only [List.mem_singleton] at hq
        subst hq
        decide)

/-! ## Claim C7 -/

/-- `sampleEnv` whose create-post endpoint answers 201 with no `id` field. -/
def emptyIdEnv : PublishEnv := { sampleEnv with createTextResp := .ok emptyIdOkResp }

/-- Counterexample to C7 as stated: the create-post endpoint answers 201 with
a body carrying no `id`; publish returns the Success branch, yet the
identifier extracted from the response (`result.get('id', '')`) is empty. -/
theorem C7_nonempty_id_counterexample :
    (post_to_linkedin_with_media emptyIdEnv "hello" none emptySession).1.1 =
      .success emptyIdOkResp ∧
    successId ((post_to_linkedin_with_media emptyIdEnv "hello" none emptySession).1.1) =
      some "" :=
  ⟨rfl, rfl⟩

/-- Claim C7 as amended: exactly one of Success and Failure holds, and the
Success branch is determined solely by the HTTP status (a non-raising 200/201
response), carrying that response verbatim — the extracted identifier is not
checked for the returned outcome, so its non-emptiness is guaranteed only for
what publish records: every history entry a publish appends has a non-empty
identifier. -/
theorem C7_success_and_identifier (text asset_urn : String)
    (resp : Except String PostResponse) (now : String) (st : SessionState) :
    (∀ res : PublishResult, (∃ r, res = .success r) ↔ ¬ ∃ m, res = .failure m) ∧
    (∀ r, resp = .ok r → (r.status = 200 ∨ r.status = 201) →
      (create_text_only_post text resp now st).1 = .success r ∧
      (create_post_with_image text asset_urn resp now st).1 = .success r ∧
      (create_post_with_video text asset_urn resp now st).1 = .success r) ∧
    (∀ r, resp = .ok r → ¬ (r.status = 200 ∨ r.status = 201) →
      (create_text_only_post text resp now st).1 =
        .failure ("Failed: " ++ toString r.status ++ " - " ++ r.body) ∧
      (create_post_with_image text asset_urn resp now st).1 =
        .failure ("Failed: " ++ toString r.status ++ " - " ++ r.body) ∧
      (create_post_with_video text asset_urn resp now st).1 =
        .failure ("Failed: " ++ toString r.status ++ " - " ++ r.body)) ∧
    (∀ e, resp = .error e →
      (create_text_only_post text resp now st).1 = .failure e ∧
      (create_post_with_image text asset_urn resp now st).1 = .failure e ∧
      (create_post_with_video text asset_urn resp now st).1 = .failure e) ∧
    (∀ p ∈ (create_text_only_post text resp now st).2.post_history,
      p ∈ st.post_history ∨ p.urn ≠ "") ∧
    (∀ p ∈ (create_post_with_image text asset_urn resp now st).2.post_history,
      p ∈ st.post_history ∨ p.urn ≠ "") ∧
    (∀ p ∈ (create_post_with_video text asset_urn resp now st).2.post_history,
      p ∈ st.post_history ∨ p.urn ≠ "") := by
  refine ⟨?_, ?_, ?_, ?_, ?_, ?_, ?_⟩
  · intro res
    cases res <;> simp
  · rintro r rfl hst
    refine ⟨?_, ?_, ?_⟩ <;>
      · simp only [create_text_only_post, create_post_with_image, create_post_with_video,
          if_pos hst]
        by_cases hid : r.id ≠ "" <;> simp [hid]
  · rintro r rfl hst
    refine ⟨?_, ?_, ?_⟩ <;>
      · simp only [create_text_only_post, create_post_with_image, create_post_with_video,
          if_neg hst]
  · rintro e rfl
    exact ⟨rfl, rfl, rfl⟩
  · intro p hp
    rcases hresp : resp with e | r
    · subst hresp; exact Or.inl hp
    · subst hresp
      simp only [create_text_only_post] at hp
      by_cases hst : r.status = 200 ∨ r.status = 201
      · rw [if_pos hst] at hp
        by_cases hid : r.id ≠ ""
        · rw [if_pos hid] at hp
          simp only [List.mem_append, List.mem_singleton] at hp
          rcases hp with hp | hp
          · exact Or.inl hp
          · exact Or.inr (by rw [hp]; exact hid)
        · rw [if_neg hid] at hp
          exact Or.inl hp
      · rw [if_neg hst] at hp
        exact Or.inl hp
  · intro p hp
    rcases hresp : resp with e | r
    · subst hresp; exact Or.inl hp
    · subst hresp
      simp only [create_post_with_image] at hp
      by_cases hst : r.status = 200 ∨ r.status = 201
      · rw [if_pos hst] at hp
        by_cases hid : r.id ≠ ""
        · rw [if_pos hid] at hp
          simp only [List.mem_append, List.mem_singleton] at hp
          rcases hp with hp | hp
          · exact Or.inl hp
          · exact Or.inr (by rw [hp]; exact hid)
        · rw [if_neg hid] at hp
          exact Or.inl hp
      · rw [if_neg hst] at hp
        exact Or.inl hp
  · intro p hp
    rcases hresp : resp with e | r
    · subst hresp; exact Or.inl hp
    · subst hresp
      simp only [create_post_with_video] at hp
      by_cases hst : r.status = 200 ∨ r.status = 201
      · rw [if_pos hst] at hp
        by_cases hid : r.id ≠ ""
        · rw [if_pos hid] at hp
          simp only [List.mem_append, List.mem_singleton] at hp
          rcases hp with hp | hp
          · exact Or.inl hp
          · exact Or.inr (by rw [hp]; exact hid)
        · rw [if_neg hid] at hp
          exact Or.inl hp
      · rw [if_neg hst] at hp
        exact Or.inl hp

/-- Witness for C7 (amended): a 201 response yields the Success branch, and
every appended history record carries a non-empty identifier. -/
theorem C7_success_and_identifier_witness :
    (create_text_only_post "hi" (.ok okResp) "2026-10-12 09:00" emptySession).1 =
      .success okResp ∧
    (∀ p ∈ (create_text_only_post "hi" (.ok okResp)
        "2026-10-12 09:00" emptySession).2.post_history,
      p ∈ emptySession.post_history ∨ p.urn ≠ "") :=
  ⟨((C7_success_and_identifier "hi" "a" (.ok okResp) "2026-10-12 09:00"
      emptySession).2.1 okResp rfl (Or.inr rfl)).1,
    (C7_success_and_identifier "hi" "a" (.ok okResp) "2026-10-12 09:00"
      emptySession).2.2.2.2.1⟩

/-! ## Claim C8 -/

/-- Claim C8 (image size precondition): an uploaded image larger than 10 MiB
is rejected by the uploader gate as a precondition failure (no media is
stored for the publish), and consequently publish never invokes the image
upload-registration call or the image byte-transfer call for such a
payload. -/
theorem C8_image_size_precondition (size : Nat) (hs : size > 10 * 1024 * 1024) :
    image_uploader_gate size = none ∧
    ∀ env text st,
      ApiCall.registerImage ∉
        (post_to_linkedin_with_media env text (image_uploader_gate size) st).2 ∧
      ApiCall.transferImage ∉
        (post_to_linkedin_with_media env text (image_uploader_gate size) st).2 := by
  have hg : image_uploader_gate size = none := by
    rw [image_uploader_gate, if_pos hs]
  refine ⟨hg, ?_⟩
  intro env text st
  rw [hg]
  unfold post_to_linkedin_with_media
  by_cases hc : env.connectionOk
  · simp only [if_pos hc]
    cases hu : env.userUrn with
    | none => simp
    | some u => simp
  · simp only [if_neg hc]
    simp

/-- Witness for C8: a 10 MiB + 1 byte image is gated out and `sampleEnv`'s
publish makes no image calls for it. -/
theorem C8_image_size_witness :
    10 * 1024 * 1024 + 1 > 10 * 1024 * 1024 ∧
    image_uploader_gate (10 * 1024 * 1024 + 1) = none ∧
    (∀ env text st,
      ApiCall.registerImage ∉
        (post_to_linkedin_with_media env text (image_uploader_gate (10 * 1024 * 1024 + 1)) st).2 ∧
      ApiCall.transferImage ∉
        (post_to_linkedin_with_media env text (image_uploader_gate (10 * 1024 * 1024 + 1)) st).2) :=
  ⟨by decide,
    (C8_image_size_precondition (10 * 1024 * 1024 + 1) (by decide)).1,
    (C8_image_size_precondition (10 * 1024 * 1024 + 1) (by decide)).2⟩

/-! ## Claim C9 -/

/-- String append acts as append on the character data. -/
theorem string_data_append (a b : String) : (a ++ b).data = a.data ++ b.data := rfl

/-- Claim C9 (URL derivation): `get_linkedin_post_url` is a pure function of
the post identifier (repeated calls agree), its value is the fixed
feed-update template with the percent-encoded identifier substituted in, and
percent-decoding the path segment after the template recovers the
identifier's UTF-8 bytes; `get_linkedin_activity_url` is likewise determined
by the identifier alone, substituting the segment after the last colon — the
whole identifier when it has no colon — into the fixed activity template. -/
theorem C9_url_derivation (u : String) (hu : u ≠ "") :
    get_linkedin_post_url u = get_linkedin_post_url u ∧
    get_linkedin_post_url u =
      some ("https://www.linkedin.com/feed/update/" ++
        String.mk (percentEncode (stringUtf8 u))) ∧
    (∀ full, get_linkedin_post_url u = some full →
      percentDecode (full.data.drop "https://www.linkedin.com/feed/update/".length) =
        stringUtf8 u) ∧
    get_linkedin_activity_url u = get_linkedin_activity_url u ∧
    get_linkedin_activity_url u =
      some ("https://www.linkedin.com/feed/update/urn:li:activity:" ++
        String.mk (lastColonSegment u)) ∧
    (∀ xs ys, ':' ∉ ys → u.data = xs ++ ':' :: ys → lastColonSegment u = ys) ∧
    (':' ∉ u.data → lastColonSegment u = u.data) := by
  refine ⟨rfl, ?_, ?_, rfl, ?_, ?_, ?_⟩
  · rw [get_linkedin_post_url, if_neg hu]
  · intro full hfull
    rw [get_linkedin_post_url, if_neg hu] at hfull
    have hfull' := Option.some.inj hfull
    rw [← hfull', string_data_append]
    have hlen : "https://www.linkedin.com/feed/update/".length =
        "https://www.linkedin.com/feed/update/".data.length := rfl
    rw [hlen, List.drop_left]
    exact percentDecode_percentEncode (stringUtf8 u) (stringUtf8_lt_256 u)
  · rw [get_linkedin_activity_url, if_neg hu]
  · intro xs ys hys hdata
    rw [lastColonSegment, hdata]
    exact getLastD_splitOnColon_append xs ys hys
  · intro h
    rw [lastColonSegment, splitOnColon_no_colon u.data h]
    rfl

/-- Witness for C9 at the identifier `urn:li:ugcPost:123`. -/
theorem C9_url_derivation_witness :
    ("urn:li:ugcPost:123" : String) ≠ "" ∧
    get_linkedin_post_url "urn:li:ugcPost:123" =
      some ("https://www.linkedin.com/feed/update/" ++
        String.mk (percentEncode (stringUtf8 "urn:li:ugcPost:123"))) ∧
    percentDecode ((("https://www.linkedin.com/feed/update/" ++
        String.mk (percentEncode (stringUtf8 "urn:li:ugcPost:123"))) : String).data.drop
        "https://www.linkedin.com/feed/update/".length) =
      stringUtf8 "urn:li:ugcPost:123" ∧
    lastColonSegment "urn:li:ugcPost:123" = ("123" : String).data := by
  have h := C9_url_derivation "urn:li:ugcPost:123" (by decide)
  exact ⟨by decide, h.2.1, h.2.2.1 _ h.2.1,
    h.2.2.2.2.2.1 ("urn:li:ugcPost" : String).data ("123" : String).data
      (by decide) (by decide)⟩

/-! ## Claim C10 -/

/-- Claim C10 (processing failure never gates post creation): the publish
outcome does not depend on the status-poll responses or durations at all;
after a successful video registration and transfer the coordinator's calls
are exactly registration, transfer and video post creation, with the result
being the create-post call's result; and this holds in particular when the
first poll observes `ERROR`, i.e. when the processing wait returns the
failure outcome. -/
theorem C10_processing_never_gates (env : PublishEnv) (text : String)
    (media : Option MediaSpec) (st : SessionState) :
    (∀ p1 p2 d1 d2,
      post_to_linkedin_with_media { env with pollResponses := p1, pollDurations := d1 }
        text media st =
      post_to_linkedin_with_media { env with pollResponses := p2, pollDurations := d2 }
        text media st) ∧
    (∀ m u upload_url asset, media = some m → env.connectionOk = true →
      env.userUrn = some u → m.mtype = .video → m.size ≤ 200 * 1024 * 1024 →
      env.videoReg = some (upload_url, asset) → env.videoUploadOk = true →
      (post_to_linkedin_with_media env text media st).2 =
        [.registerVideo, .transferVideo, .createVideoPost] ∧
      (post_to_linkedin_with_media env text media st).1 =
        create_post_with_video text asset env.createVideoResp env.nowStr st) ∧
    (∀ m u upload_url asset, media = some m → env.connectionOk = true →
      env.userUrn = some u → m.mtype = .video → m.size ≤ 200 * 1024 * 1024 →
      env.videoReg = some (upload_url, asset) → env.videoUploadOk = true →
      check_video_status (env.pollResponses 0) = "ERROR" →
      wait_for_video_processing env.pollResponses env.pollDurations 0 120 0 0 = .error ∧
      (post_to_linkedin_with_media env text media st).1 =
        create_post_with_video text asset env.createVideoResp env.nowStr st) := by
  refine ⟨?_, ?_, ?_⟩
  · intro p1 p2 d1 d2
    rfl
  · rintro m u upload_url asset rfl hc hu hv hsize hreg hup
    rw [publish_video_after_transfer env text m st u upload_url asset
      hc hu hv hsize hreg hup]
    exact ⟨rfl, rfl⟩
  · rintro m u upload_url asset rfl hc hu hv hsize hreg hup hpoll
    refine ⟨?_, ?_⟩
    · rw [wait_for_video_processing, dif_pos (by omega)]
      simp [hpoll]
    · rw [publish_video_after_transfer env text m st u upload_url asset
        hc hu hv hsize hreg hup]

/-- `sampleVideoEnv` whose every status poll reports `ERROR`. -/
def errorPollEnv : PublishEnv :=
  { sampleVideoEnv with pollResponses := fun _ => some (200, [some "ERROR"]) }

/-- Witness for C10: with every poll reporting `ERROR` the wait returns the
failure outcome, yet publish still returns the video create-post call's
result; and swapping the poll behaviour leaves the publish output
byte-identical. -/
theorem C10_processing_never_gates_witness :
    (errorPollEnv.connectionOk = true ∧
      check_video_status (errorPollEnv.pollResponses 0) = "ERROR") ∧
    (wait_for_video_processing errorPollEnv.pollResponses
        errorPollEnv.pollDurations 0 120 0 0 = .error ∧
      (post_to_linkedin_with_media errorPollEnv "demo"
          (some { size := 1024, mtype := .video }) emptySession).1 =
        create_post_with_video "demo" "urn:li:digitalmediaAsset:V1"
          errorPollEnv.createVideoResp errorPollEnv.nowStr emptySession) ∧
    post_to_linkedin_with_media
        { errorPollEnv with pollResponses := (fun _ => none), pollDurations := (fun _ => 5) }
        "demo" (some { size := 1024, mtype := .video }) emptySession =
      post_to_linkedin_with_media
        { errorPollEnv with
          pollResponses := (fun _ => some (200, [some "ERROR"])),
          pollDurations := (fun _ => 0) }
        "demo" (some { size := 1024, mtype := .video }) emptySession :=
  ⟨⟨rfl, rfl⟩,
    (C10_processing_never_gates errorPollEnv "demo"
        (some { size := 1024, mtype := .video }) emptySession).2.2
      _ "urn:li:person:1" "https://upload" "urn:li:digitalmediaAsset:V1"
      rfl rfl rfl rfl (by decide) rfl rfl rfl,
    (C10_processing_never_gates errorPollEnv "demo"
        (some { size := 1024, mtype := .video }) emptySession).1
      (fun _ => none) (fun _ => some (200, [some "ERROR"])) (fun _ => 5) (fun _ => 0)⟩
